import Mathlib

/-
Verification development for the cloudfix campaign agent (src/agent.py).

The file shallowly embeds the pure content of the script:
  * the file-manipulation tools (create_directory, find_file, create_file,
    open_file, replace_file, append_file, edit_lines, ls) as functions on an
    explicit filesystem state;
  * the subprocess-backed tools (compile, lint, create_and_push_branch,
    git_diff, git_reset) as functions of the subprocess outcomes they observe;
  * the registry of tool names bound to the model;
  * the campaign driver loop over the finder list (attempt loop, break on a
    non-raising attempt, branch push after a raising attempt);
  * the agent loop iteration bound (modelled from the specification, since the
    executor itself lives in an external library; the script only configures
    max_iterations = 50).

Python exceptions escaping a function are modelled as Except.error; a tool
whose whole body is wrapped in try/except never produces Except.error.
Python file reads/writes are modelled by a list of (path, content) pairs;
readlines/writelines semantics is reproduced exactly (lines keep their
trailing newline character, a last line may lack one).
-/

namespace CloudfixAgent

/-- `ROOT_DIR` from src/agent.py. -/
def ROOT_DIR : String := "."

/-- `REPO_DIR` from src/agent.py. -/
def REPO_DIR : String := "cloudfix-aws"

/-- `VALID_FILE_TYPES` from src/agent.py (a set in Python, a list here). -/
def VALID_FILE_TYPES : List String :=
  ["py", "txt", "md", "cpp", "c", "java", "js", "html", "css", "ts", "json"]

/-- Helper for Python's `str.split(sep)` with a one-character separator:
splits the character list at every occurrence of `sep`, keeping empty
segments, exactly as Python does (`"".split(".") == [""]`,
`"a.".split(".") == ["a", ""]`). -/
def pySplitCharAux (sep : Char) : List Char → List Char → List (List Char)
  | [], acc => [acc.reverse]
  | c :: cs, acc =>
    if c = sep then acc.reverse :: pySplitCharAux sep cs []
    else pySplitCharAux sep cs (c :: acc)

/-- Python's `s.split(sep)` for a one-character separator. -/
def pySplitChar (sep : Char) (s : String) : List String :=
  (pySplitCharAux sep s.data []).map String.mk

/-- `filename.split(".")` as used by `create_file`. -/
def pySplitDot (s : String) : List String := pySplitChar '.' s

/-- Model of the filesystem state the tools act on: files are keyed by their
joined path, directories are recorded by path. -/
structure FS where
  files : List (String × String)
  dirs : List String
deriving DecidableEq

/-- Lookup of a file's content by its path (first binding wins, matching the
write representation below). -/
def lookupFile : List (String × String) → String → Option String
  | [], _ => Option.none
  | p :: ps, k => if p.1 = k then some p.2 else lookupFile ps k

/-- `Path(ROOT_DIR).joinpath(directory).joinpath(filename)` rendered as a
string: pathlib drops the leading `.` segment and empty segments. -/
def filePath (directory filename : String) : String :=
  if directory = "" ∨ directory = ROOT_DIR then filename
  else directory ++ "/" ++ filename

/-- Record a directory (idempotently), modelling `mkdir(parents=True,
exist_ok=True)`. -/
def insertDir (d : String) (ds : List String) : List String :=
  if ds.contains d then ds else d :: ds

/-- Overwrite/create the file at `path`, modelling `open(path, "w")` followed
by a full write. -/
def storeFile (fs : FS) (path content : String) : FS :=
  { fs with files := (path, content) :: fs.files }

/-- `create_directory` (src/agent.py:29-41): whole body inside try/except;
mkdir is idempotent, so in this model it always reports success. -/
def create_directory (directory : String) (fs : FS) : FS × String :=
  ({ fs with dirs := insertDir directory fs.dirs },
   "Successfully created directory " ++ directory)

/-- The invalid-filename message of `create_file` (src/agent.py:68). -/
def invalidFilenameMsg (filename : String) : String :=
  "Invalid filename " ++ filename ++ " - must end with a valid file type: " ++
    toString VALID_FILE_TYPES

/-- `create_file` (src/agent.py:56-80): `file_stem, file_type =
filename.split(".")` succeeds only when the split has exactly two parts, and
the extension must be allow-listed; any failure of the unpacking or of the
assert lands in the bare `except` and returns the invalid-filename message
before `create_directory` is ever called.  On the valid path the directory is
created first, then an existing file is refused, otherwise the file is
written. -/
def create_file (filename content directory : String) (fs : FS) : FS × String :=
  match pySplitDot filename with
  | [_, ftype] =>
    if ftype ∈ VALID_FILE_TYPES then
      let fs1 := (create_directory directory fs).1
      let path := filePath directory filename
      match lookupFile fs1.files path with
      | some _ => (fs1, "File " ++ filename ++ " already exists at " ++ path ++ ".")
      | Option.none =>
          (storeFile fs1 path content,
           "Successfully created file " ++ filename ++ " at " ++ path)
    else (fs, invalidFilenameMsg filename)
  | _ => (fs, invalidFilenameMsg filename)

/-- `open_file` (src/agent.py:83-94): returns the content of an existing
file, a not-found message otherwise. -/
def open_file (filename directory : String) (fs : FS) : String :=
  match lookupFile fs.files (filePath directory filename) with
  | Option.none => "File " ++ filename ++ " not found in " ++ directory ++ "."
  | some content => content

/-- `replace_file` (src/agent.py:96-108). -/
def replace_file (filename content directory : String) (fs : FS) : FS × String :=
  let path := filePath directory filename
  match lookupFile fs.files path with
  | Option.none => (fs, "File " ++ filename ++ " not found in " ++ directory ++ ".")
  | some _ =>
      (storeFile fs path content,
       "Successfully updated file " ++ filename ++ " at " ++ path)

/-- `append_file` (src/agent.py:110-122). -/
def append_file (filename content directory : String) (fs : FS) : FS × String :=
  let path := filePath directory filename
  match lookupFile fs.files path with
  | Option.none => (fs, "File " ++ filename ++ " not found in " ++ directory ++ ".")
  | some old =>
      (storeFile fs path (old ++ content),
       "Successfully appended content to file " ++ filename ++ " at " ++ path)

/-- Python's `file.readlines()` on a character list: each returned line keeps
its terminating newline character; a final segment without a newline is
returned without one; an empty tail contributes nothing.  `acc` is the
reversed current line. -/
def readlinesAux : List Char → List Char → List (List Char)
  | [], acc => if acc = [] then [] else [acc.reverse]
  | c :: cs, acc =>
    if c = '\n' then (acc.reverse ++ ['\n']) :: readlinesAux cs []
    else readlinesAux cs (c :: acc)

/-- The lines of a file content, Python `readlines` semantics. -/
def pyLines (s : String) : List String :=
  (readlinesAux s.data []).map String.mk

/-- The file content produced by a successful `edit_lines` call:
`lines[start_line-1:end_line] = [new_content + "\n"]` followed by
`writelines`. -/
def editResultContent (content : String) (startLine endLine : Nat) (newContent : String) : String :=
  String.mk (((readlinesAux content.data []).take (startLine - 1) ++
              [newContent.data ++ ['\n']] ++
              (readlinesAux content.data []).drop endLine).flatten)

/-- The success message of `edit_lines` (src/agent.py:148). -/
def editSuccessMsg (startLine endLine : Nat) (path : String) : String :=
  "Successfully edited lines " ++ toString startLine ++ " to " ++
    toString endLine ++ " in file " ++ path

/-- `edit_lines` (src/agent.py:125-150): missing file reported; then the
range check `start_line < 1 or end_line > len(lines) or start_line >
end_line` returns the invalid-range message with no write; otherwise the
1-indexed inclusive range is spliced out, replaced by the single list element
`new_content + "\n"`, and the whole file is rewritten. -/
def edit_lines (filename : String) (startLine endLine : Nat)
    (newContent directory : String) (fs : FS) : FS × String :=
  let path := filePath directory filename
  match lookupFile fs.files path with
  | Option.none => (fs, "File " ++ filename ++ " not found in " ++ directory ++ ".")
  | some content =>
    let lines := readlinesAux content.data []
    if startLine < 1 ∨ lines.length < endLine ∨ endLine < startLine then
      (fs, "Invalid line range specified for file " ++ filename ++ ".")
    else
      (storeFile fs path (editResultContent content startLine endLine newContent),
       editSuccessMsg startLine endLine path)

/-- The path segment after the last `/` of a path. -/
def baseName (p : String) : String :=
  ((pySplitChar '/' p).getLastD "")

/-- Join path segments back with `/`. -/
def intercalateSlash : List String → String
  | [] => ""
  | [x] => x
  | x :: xs => x ++ "/" ++ intercalateSlash xs

/-- The parent directory of a path (as `os.path` renders it, `.` for a bare
name). -/
def parentDir (p : String) : String :=
  let parts := pySplitChar '/' p
  if parts.length ≤ 1 then "." else intercalateSlash parts.dropLast

/-- Whether path `p` lies (strictly) below directory `path`, the territory
`Path(path).rglob` enumerates. -/
def underPath (path p : String) : Bool :=
  path == "." || List.isPrefixOf (path ++ "/").data p.data

/-- `find_file` (src/agent.py:43-52).  The body has no try/except: an error
raised by `Path(path).rglob(filename)` propagates to the caller.  One such
error reproduced here: pathlib refuses non-relative patterns, so a `filename`
beginning with `/` raises `NotImplementedError` (src uses the pre-3.13
pathlib).  On the normal path the first match is returned, `None` when there
is none. -/
def find_file (filename path : String) (fs : FS) : Except String (Option String) :=
  match filename.data with
  | '/' :: _ => Except.error "NotImplementedError: Non-relative patterns are unsupported"
  | _ =>
    Except.ok
      (((fs.files.map Prod.fst).filter
          (fun p => underPath path p && baseName p == filename)).head?)

/-- A tool's returned value: a plain string, the `ls` dictionary, or Python's
`None` (which `find_file` returns on zero matches). -/
inductive ToolResult where
  | str (s : String)
  | dict (currentDirectory : String) (files dirs : List String)
  | pyNone
deriving DecidableEq

/-- `ls` (src/agent.py:154-172): a not-found message for an absent directory,
otherwise the `{current_directory, files, directories}` mapping partitioned
by filesystem type.  Note the Python code checks `directory` directly (it is
not joined with `ROOT_DIR`). -/
def ls (directory : String) (fs : FS) : ToolResult :=
  if directory == "." || fs.dirs.contains directory then
    ToolResult.dict directory
      (((fs.files.map Prod.fst).filter (fun p => parentDir p == directory)).map baseName)
      ((fs.dirs.filter (fun d => parentDir d == directory)).map baseName)
  else ToolResult.str ("Directory " ++ directory ++ " not found.")

/-- The outcome of one `subprocess.run(...)` call: either the call raised, or
it returned with an exit code and captured stdout/stderr. -/
inductive SubprocOutcome where
  | raises (msg : String)
  | ret (returncode : Int) (stdout stderr : String)
deriving DecidableEq

/-- `compile` (src/agent.py:174-189) as a function of the outcomes of its two
subprocess calls (`yarn install`, `npm run analyze-code`); the whole body is
inside try/except. -/
def compile (o1 o2 : SubprocOutcome) : String :=
  match o1 with
  | SubprocOutcome.raises e => "Failed to run compile command: " ++ e
  | SubprocOutcome.ret rc1 _ err1 =>
    if rc1 ≠ 0 then "Failed to install frozen lockfile: " ++ err1
    else
      match o2 with
      | SubprocOutcome.raises e => "Failed to run compile command: " ++ e
      | SubprocOutcome.ret rc2 out2 err2 =>
        if rc2 = 0 then "Compilation successful"
        else "Compilation failed: " ++ out2 ++ " " ++ err2

/-- `lint` (src/agent.py:191-206). -/
def lint (o : SubprocOutcome) : String :=
  match o with
  | SubprocOutcome.raises e => "Failed to run lint command: " ++ e
  | SubprocOutcome.ret rc _ err =>
    if rc = 0 then "Linting successful" else "Linting failed: " ++ err

/-- `create_and_push_branch` (src/agent.py:208-243) as a function of the
outcomes of its four git subprocess calls (checkout -b, add, commit, push);
it stops at the first failing step, and any raised error is caught. -/
def create_and_push_branch (branchName _commitMessage : String)
    (o1 o2 o3 o4 : SubprocOutcome) : String :=
  match o1 with
  | SubprocOutcome.raises e => "Failed to create and push branch: " ++ e
  | SubprocOutcome.ret rc1 _ err1 =>
    if rc1 ≠ 0 then "Failed to create branch: " ++ err1
    else
      match o2 with
      | SubprocOutcome.raises e => "Failed to create and push branch: " ++ e
      | SubprocOutcome.ret rc2 _ err2 =>
        if rc2 ≠ 0 then "Failed to add changes: " ++ err2
        else
          match o3 with
          | SubprocOutcome.raises e => "Failed to create and push branch: " ++ e
          | SubprocOutcome.ret rc3 _ err3 =>
            if rc3 ≠ 0 then "Failed to commit changes: " ++ err3
            else
              match o4 with
              | SubprocOutcome.raises e => "Failed to create and push branch: " ++ e
              | SubprocOutcome.ret rc4 _ err4 =>
                if rc4 ≠ 0 then "Failed to push branch: " ++ err4
                else "Successfully created and pushed branch " ++ branchName

/-- `git_diff` (src/agent.py:245-259). -/
def git_diff (o : SubprocOutcome) : String :=
  match o with
  | SubprocOutcome.raises e => "Failed to run git diff command: " ++ e
  | SubprocOutcome.ret rc out err =>
    if rc = 0 then out else "Failed to get git diff: " ++ err

/-- `git_reset` (src/agent.py:262-277); defined in the script but, as shown
below, absent from the tool list bound to the model. -/
def git_reset (o : SubprocOutcome) : String :=
  match o with
  | SubprocOutcome.raises e => "Failed to run git reset command: " ++ e
  | SubprocOutcome.ret rc _ err =>
    if rc = 0 then "Successfully reset the repository to the last commit."
    else "Failed to reset the repository: " ++ err

/-- The names of the tools in the `tools` list bound to the model
(src/agent.py:283-297).  `ShellTool` registers under the name `terminal`; the
remaining entries are the decorated functions, named after themselves. -/
def toolNames : List String :=
  ["terminal", "create_directory", "open_file", "find_file", "create_file",
   "append_file", "replace_file", "edit_lines", "ls", "compile", "lint",
   "create_and_push_branch", "git_diff"]

/-- An invocation of one of the registry's tools implemented in the script
(every `tools` entry except the external `ShellTool`).  Subprocess-backed
tools carry the outcomes of the subprocess calls they would perform. -/
inductive ToolCall where
  | createDirectoryCall (directory : String)
  | findFileCall (filename path : String)
  | createFileCall (filename content directory : String)
  | openFileCall (filename directory : String)
  | replaceFileCall (filename content directory : String)
  | appendFileCall (filename content directory : String)
  | editLinesCall (filename : String) (startLine endLine : Nat) (newContent directory : String)
  | lsCall (directory : String)
  | compileCall (o1 o2 : SubprocOutcome)
  | lintCall (o : SubprocOutcome)
  | createAndPushBranchCall (branchName commitMessage : String) (o1 o2 o3 o4 : SubprocOutcome)
  | gitDiffCall (o : SubprocOutcome)
deriving DecidableEq

/-- Whether a call targets `find_file`. -/
def isFindFileCall : ToolCall → Bool
  | ToolCall.findFileCall _ _ => true
  | _ => false

/-- Dispatch of a tool invocation: `Except.error` models a Python exception
escaping the tool to the caller. -/
def invokeTool : ToolCall → FS → Except String (FS × ToolResult)
  | ToolCall.createDirectoryCall d, fs =>
    Except.ok ((create_directory d fs).1, ToolResult.str (create_directory d fs).2)
  | ToolCall.findFileCall filename path, fs =>
    match find_file filename path fs with
    | Except.error e => Except.error e
    | Except.ok (some p) => Except.ok (fs, ToolResult.str p)
    | Except.ok Option.none => Except.ok (fs, ToolResult.pyNone)
  | ToolCall.createFileCall n c d, fs =>
    Except.ok ((create_file n c d fs).1, ToolResult.str (create_file n c d fs).2)
  | ToolCall.openFileCall n d, fs => Except.ok (fs, ToolResult.str (open_file n d fs))
  | ToolCall.replaceFileCall n c d, fs =>
    Except.ok ((replace_file n c d fs).1, ToolResult.str (replace_file n c d fs).2)
  | ToolCall.appendFileCall n c d, fs =>
    Except.ok ((append_file n c d fs).1, ToolResult.str (append_file n c d fs).2)
  | ToolCall.editLinesCall n s e c d, fs =>
    Except.ok ((edit_lines n s e c d fs).1, ToolResult.str (edit_lines n s e c d fs).2)
  | ToolCall.lsCall d, fs => Except.ok (fs, ls d fs)
  | ToolCall.compileCall o1 o2, fs => Except.ok (fs, ToolResult.str (compile o1 o2))
  | ToolCall.lintCall o, fs => Except.ok (fs, ToolResult.str (lint o))
  | ToolCall.createAndPushBranchCall b m o1 o2 o3 o4, fs =>
    Except.ok (fs, ToolResult.str (create_and_push_branch b m o1 o2 o3 o4))
  | ToolCall.gitDiffCall o, fs => Except.ok (fs, ToolResult.str (git_diff o))

/-- Whether a tool dispatch returned normally (as opposed to raising). -/
def isOkResult : Except String (FS × ToolResult) → Bool
  | Except.ok _ => true
  | Except.error _ => false

/-- Modelled from the spec: one oracle response in the Agent Loop — a batch
of tool calls, a final answer, or unparseable output.  The loop itself lives
in the external `AgentExecutor`; src/agent.py only configures it. -/
inductive OracleResponse where
  | toolCalls (calls : List ToolCall)
  | finalAnswer (answer : String)
  | malformed

/-- Modelled from the spec: how one Agent Loop attempt ends — a final
answer, an abort after a failed parse-recovery, or the iteration cap. -/
inductive LoopOutcome where
  | done (answer : String)
  | abortedParse
  | abortedCap
deriving DecidableEq

/-- The iteration cap configured on the executor
(`max_iterations=50`, src/agent.py:468). -/
def MAX_ITERATIONS : Nat := 50

/-- Modelled from the spec: the Agent Loop state machine of §4.3.  The
oracle is an opaque function from the round index to a response; `fuel` is
the number of `AwaitingModel` rounds still allowed; `recovering` records
that the previous round was malformed and one re-prompt recovery is in
flight (a second malformed response aborts). -/
def agentLoopAux (oracle : Nat → OracleResponse) : Nat → Nat → Bool → LoopOutcome
  | 0, _, _ => LoopOutcome.abortedCap
  | fuel + 1, round, recovering =>
    match oracle round with
    | OracleResponse.finalAnswer a => LoopOutcome.done a
    | OracleResponse.toolCalls _ => agentLoopAux oracle fuel (round + 1) false
    | OracleResponse.malformed =>
      if recovering then LoopOutcome.abortedParse
      else agentLoopAux oracle fuel (round + 1) true

/-- Modelled from the spec: one Agent Loop attempt under the configured
iteration cap. -/
def agentLoop (oracle : Nat → OracleResponse) : LoopOutcome :=
  agentLoopAux oracle MAX_ITERATIONS 0 false

/-- The number of oracle rounds one attempt consumes (same recursion as
`agentLoopAux`, counting rounds). -/
def agentLoopRoundsAux (oracle : Nat → OracleResponse) : Nat → Nat → Bool → Nat
  | 0, _, _ => 0
  | fuel + 1, round, recovering =>
    match oracle round with
    | OracleResponse.finalAnswer _ => 1
    | OracleResponse.toolCalls _ => 1 + agentLoopRoundsAux oracle fuel (round + 1) false
    | OracleResponse.malformed =>
      if recovering then 1
      else 1 + agentLoopRoundsAux oracle fuel (round + 1) true

/-- The number of oracle rounds one attempt consumes under the configured
cap. -/
def agentLoopRounds (oracle : Nat → OracleResponse) : Nat :=
  agentLoopRoundsAux oracle MAX_ITERATIONS 0 false

/-- Python's `finder.replace('/', '_')`. -/
def replaceSlash (s : String) : String :=
  String.mk (s.data.map (fun c => if c = '/' then '_' else c))

/-- The branch name the campaign driver pushes for attempt index `attempt`
(0-based; the branch label uses `attempt + 1`), src/agent.py:565. -/
def pushBranchName (finder : String) (attempt : Nat) : String :=
  replaceSlash finder ++ "_attempt_" ++ toString (attempt + 1)

/-- The commit message of the driver's push, src/agent.py:566. -/
def pushCommitMsg (finder : String) : String :=
  "Partial implementation for " ++ finder

/-- The fixed campaign list `finders` (src/agent.py:475-549). -/
def finders : List String :=
  ["cloudfix-aws/cloudfix-ff/src/ff/Emr/Enable/ManagedScaling",
   "cloudfix-aws/cloudfix-ff/src/ff/Emr/Optimize/Instances",
   "cloudfix-aws/cloudfix-ff/src/ff/Emr/Reserve/Instances",
   "cloudfix-aws/cloudfix-ff/src/ff/Emr/Consolidate/AzInstances",
   "cloudfix-aws/cloudfix-ff/src/ff/Emr/Retype/Tasks",
   "cloudfix-aws/cloudfix-ff/src/ff/Emr/Delete/IdleClusters",
   "cloudfix-aws/cloudfix-ff/src/ff/Rds/Optimize/Instances",
   "cloudfix-aws/cloudfix-ff/src/ff/Rds/Optimize/ProvisionedIops",
   "cloudfix-aws/cloudfix-ff/src/ff/Rds/Optimize/EOLVersion",
   "cloudfix-aws/cloudfix-ff/src/ff/Rds/Scan/ReserveInstances",
   "cloudfix-aws/cloudfix-ff/src/ff/Rds/Resize/Storage",
   "cloudfix-aws/cloudfix-ff/src/ff/Rds/Resize/PostgresClusters",
   "cloudfix-aws/cloudfix-ff/src/ff/Rds/Resize/AuroraMySQLClusters",
   "cloudfix-aws/cloudfix-ff/src/ff/Rds/Retype/Instances",
   "cloudfix-aws/cloudfix-ff/src/ff/Rds/Retype/IoOptimized",
   "cloudfix-aws/cloudfix-ff/src/ff/Rds/Retype/AuroraToGraviton",
   "cloudfix-aws/cloudfix-ff/src/ff/Rds/Retype/AuroraServerless",
   "cloudfix-aws/cloudfix-ff/src/ff/Rds/Retype/SingleAZ",
   "cloudfix-aws/cloudfix-ff/src/ff/Rds/Delete/IdleClusters",
   "cloudfix-aws/cloudfix-ff/src/ff/Ec2/Enable/ComputeOptimizer",
   "cloudfix-aws/cloudfix-ff/src/ff/Ec2/Optimize/Asg",
   "cloudfix-aws/cloudfix-ff/src/ff/Ec2/Optimize/Ecs",
   "cloudfix-aws/cloudfix-ff/src/ff/Ec2/Optimize/Instances",
   "cloudfix-aws/cloudfix-ff/src/ff/Ec2/Optimize/MsSqlLicenses",
   "cloudfix-aws/cloudfix-ff/src/ff/Ec2/Optimize/Gpu",
   "cloudfix-aws/cloudfix-ff/src/ff/Ec2/Optimize/Eks",
   "cloudfix-aws/cloudfix-ff/src/ff/Ec2/FixConfiguration/VpcDns",
   "cloudfix-aws/cloudfix-ff/src/ff/Ec2/FixConfiguration/InstanceProfiles",
   "cloudfix-aws/cloudfix-ff/src/ff/Ec2/FixConfiguration/CloudWatchAgents",
   "cloudfix-aws/cloudfix-ff/src/ff/Ec2/FixConfiguration/SsmAgents",
   "cloudfix-aws/cloudfix-ff/src/ff/Ec2/FixConfiguration/VpcEndpoints",
   "cloudfix-aws/cloudfix-ff/src/ff/Ec2/Install/CloudWatchAgents",
   "cloudfix-aws/cloudfix-ff/src/ff/Ec2/Install/SsmAgents",
   "cloudfix-aws/cloudfix-ff/src/ff/Ec2/Install/SsmAgentsViaInstanceConnect",
   "cloudfix-aws/cloudfix-ff/src/ff/Ec2/Resize/Asg",
   "cloudfix-aws/cloudfix-ff/src/ff/Ec2/Resize/Instances",
   "cloudfix-aws/cloudfix-ff/src/ff/Ec2/Retype/InstancesIntelToAmd",
   "cloudfix-aws/cloudfix-ff/src/ff/Ec2/Retype/EcsFargateTasks",
   "cloudfix-aws/cloudfix-ff/src/ff/Ec2/Delete/IdleInstances",
   "cloudfix-aws/cloudfix-ff/src/ff/Ec2/Delete/IdleAMIs",
   "cloudfix-aws/cloudfix-ff/src/ff/ElastiCache/Delete/IdleClusters",
   "cloudfix-aws/cloudfix-ff/src/ff/CloudFront/Enable/Compression",
   "cloudfix-aws/cloudfix-ff/src/ff/ML/Stop/IdleSagemakerNotebooks",
   "cloudfix-aws/cloudfix-ff/src/ff/ML/Resize/Sagemaker",
   "cloudfix-aws/cloudfix-ff/src/ff/ML/Retype/ToInferentia",
   "cloudfix-aws/cloudfix-ff/src/ff/ML/Delete/IdleSagemakerModels",
   "cloudfix-aws/cloudfix-ff/src/ff/ML/Delete/IdleEndpoints",
   "cloudfix-aws/cloudfix-ff/src/ff/ML/Delete/IdleBedrockModels",
   "cloudfix-aws/cloudfix-ff/src/ff/DatabaseMigrationService/Delete/IdleInstances",
   "cloudfix-aws/cloudfix-ff/src/ff/Efs/Enable/IntelligentTiering",
   "cloudfix-aws/cloudfix-ff/src/ff/OpenSearch/Resize/Instances",
   "cloudfix-aws/cloudfix-ff/src/ff/OpenSearch/Resize/Volumes",
   "cloudfix-aws/cloudfix-ff/src/ff/OpenSearch/Retype/InstancesToGraviton",
   "cloudfix-aws/cloudfix-ff/src/ff/AWS/Scan/Cost",
   "cloudfix-aws/cloudfix-ff/src/ff/Ebs/Archive/OldVolumeSnapshots",
   "cloudfix-aws/cloudfix-ff/src/ff/Ebs/Retype/Io1Io2Volumes",
   "cloudfix-aws/cloudfix-ff/src/ff/Ebs/Retype/Gp2Volumes",
   "cloudfix-aws/cloudfix-ff/src/ff/Ebs/Delete/LongStoppedVolumes",
   "cloudfix-aws/cloudfix-ff/src/ff/Ebs/Delete/IdleVolumes",
   "cloudfix-aws/cloudfix-ff/src/ff/Neptune/Delete/IdleClusters",
   "cloudfix-aws/cloudfix-ff/src/ff/CloudTrail/Delete/DuplicateTrail",
   "cloudfix-aws/cloudfix-ff/src/ff/DynamoDb/Retype/Table",
   "cloudfix-aws/cloudfix-ff/src/ff/Eks/Optimize/EOLVersion",
   "cloudfix-aws/cloudfix-ff/src/ff/S3/Enable/IntelligentTiering",
   "cloudfix-aws/cloudfix-ff/src/ff/S3/Enable/DDBTrafficRedirect",
   "cloudfix-aws/cloudfix-ff/src/ff/Bedrock/Delete/IdleKBs",
   "cloudfix-aws/cloudfix-ff/src/ff/Elb/Delete/IdleLoadBalancers",
   "cloudfix-aws/cloudfix-ff/src/ff/Vpc/Consolidate/EndpointsESW",
   "cloudfix-aws/cloudfix-ff/src/ff/Vpc/Delete/IdleEndpoints",
   "cloudfix-aws/cloudfix-ff/src/ff/Vpc/Delete/IdleElasticIPAddresses",
   "cloudfix-aws/cloudfix-ff/src/ff/Vpc/Delete/IdleNATGateways",
   "cloudfix-aws/cloudfix-ff/src/ff/QuickSight/Delete/IdleUsers",
   "cloudfix-aws/cloudfix-ff/src/ff/Kendra/Delete/IdleIndices"]

/-- The attempt indices the campaign driver actually runs for one target
(src/agent.py:553-566): `for attempt in range(5)`, and the body executes
`break` right after a `stream` call that does not raise, so attempt
`a + 1` is reached only when attempt `a` raised.  `raises a = true` means
the Agent Loop attempt with index `a` raised an exception. -/
def driverAttemptsRunAux (raises : Nat → Bool) : Nat → Nat → List Nat
  | 0, _ => []
  | fuel + 1, attempt =>
    attempt :: (if raises attempt then driverAttemptsRunAux raises fuel (attempt + 1) else [])

/-- The attempt indices run for one target (attempt cap 5). -/
def driverAttemptsRun (raises : Nat → Bool) : List Nat :=
  driverAttemptsRunAux raises 5 0

/-- The `(branch_name, commit_message)` pushes the driver performs for one
target: the push statement sits after the `except` block, so control reaches
it only when the attempt raised — a non-raising attempt hits `break`
first. -/
def driverPushesAux (raises : Nat → Bool) (finder : String) : Nat → Nat → List (String × String)
  | 0, _ => []
  | fuel + 1, attempt =>
    if raises attempt then
      (pushBranchName finder attempt, pushCommitMsg finder) ::
        driverPushesAux raises finder fuel (attempt + 1)
    else []

/-- The driver-level pushes for one target (attempt cap 5). -/
def driverPushes (raises : Nat → Bool) (finder : String) : List (String × String) :=
  driverPushesAux raises finder 5 0


/-- Well-formedness of a `readlines` result: every line is nonempty, every
line except possibly the last ends in exactly one newline (its terminal
character), and no newline occurs elsewhere. -/
inductive LinesWF : List (List Char) → Prop where
  | nil : LinesWF []
  | single (m : List Char) : '\n' ∉ m → m ≠ [] → LinesWF [m]
  | cons (m : List Char) (ls : List (List Char)) :
      '\n' ∉ m → LinesWF ls → LinesWF ((m ++ ['\n']) :: ls)

theorem readlinesAux_nil (acc : List Char) :
    readlinesAux [] acc = if acc = [] then [] else [acc.reverse] := rfl

theorem readlinesAux_cons (c : Char) (cs acc : List Char) :
    readlinesAux (c :: cs) acc =
      if c = '\n' then (acc.reverse ++ ['\n']) :: readlinesAux cs []
      else readlinesAux cs (c :: acc) := rfl

theorem readlinesAux_cons_nl (cs acc : List Char) :
    readlinesAux ('\n' :: cs) acc = (acc.reverse ++ ['\n']) :: readlinesAux cs [] := by
  rw [readlinesAux_cons, if_pos rfl]

theorem readlinesAux_cons_ne (c : Char) (cs acc : List Char) (h : c ≠ '\n') :
    readlinesAux (c :: cs) acc = readlinesAux cs (c :: acc) := by
  rw [readlinesAux_cons, if_neg h]

theorem readlinesAux_append_newline (cs : List Char) :
    ∀ (acc rest : List Char),
      readlinesAux (cs ++ '\n' :: rest) acc =
        readlinesAux (cs ++ ['\n']) acc ++ readlinesAux rest [] := by
  induction cs with
  | nil =>
    intro acc rest
    rw [List.nil_append, List.nil_append, readlinesAux_cons_nl, readlinesAux_cons_nl,
        readlinesAux_nil, if_pos rfl]
    simp
  | cons c cs ih =>
    intro acc rest
    by_cases h : c = '\n'
    · subst h
      rw [List.cons_append, List.cons_append, readlinesAux_cons_nl, readlinesAux_cons_nl,
          ih [] rest]
      simp
    · rw [List.cons_append, List.cons_append, readlinesAux_cons_ne c _ _ h,
          readlinesAux_cons_ne c _ _ h, ih (c :: acc) rest]

theorem readlinesAux_line :
    ∀ (m : List Char), '\n' ∉ m →
      ∀ acc, readlinesAux (m ++ ['\n']) acc = [acc.reverse ++ (m ++ ['\n'])] := by
  intro m
  induction m with
  | nil =>
    intro _ acc
    rw [List.nil_append, readlinesAux_cons_nl, readlinesAux_nil, if_pos rfl]
  | cons c m ih =>
    intro hm acc
    have hc : c ≠ '\n' := fun h => hm (h ▸ List.mem_cons_self c m)
    have hm' : '\n' ∉ m := fun h => hm (List.mem_cons_of_mem c h)
    rw [List.cons_append, readlinesAux_cons_ne c _ _ hc, ih hm' (c :: acc)]
    simp

theorem readlinesAux_closed_length :
    ∀ (m acc : List Char), (readlinesAux (m ++ ['\n']) acc).length = m.count '\n' + 1 := by
  intro m
  induction m with
  | nil =>
    intro acc
    rw [List.nil_append, readlinesAux_cons_nl, readlinesAux_nil, if_pos rfl]
    simp
  | cons c m ih =>
    intro acc
    by_cases h : c = '\n'
    · subst h
      rw [List.cons_append, readlinesAux_cons_nl]
      simp [ih, List.count_cons]
    · rw [List.cons_append, readlinesAux_cons_ne c _ _ h, ih (c :: acc)]
      simp [List.count_cons, h]

theorem readlinesAux_open :
    ∀ (m : List Char), '\n' ∉ m → m ≠ [] →
      ∀ acc, readlinesAux m acc = [acc.reverse ++ m] := by
  intro m
  induction m with
  | nil => intro _ h; exact absurd rfl h
  | cons c m ih =>
    intro hm _ acc
    have hc : c ≠ '\n' := fun h => hm (h ▸ List.mem_cons_self c m)
    have hm' : '\n' ∉ m := fun h => hm (List.mem_cons_of_mem c h)
    cases m with
    | nil =>
      rw [readlinesAux_cons_ne c _ _ hc, readlinesAux_nil,
          if_neg (List.cons_ne_nil c acc)]
      simp
    | cons d m' =>
      rw [readlinesAux_cons_ne c _ _ hc, ih hm' (List.cons_ne_nil d m') (c :: acc)]
      simp

theorem linesWF_readlinesAux :
    ∀ (cs acc : List Char), '\n' ∉ acc → LinesWF (readlinesAux cs acc) := by
  intro cs
  induction cs with
  | nil =>
    intro acc hacc
    by_cases h : acc = []
    · subst h; rw [readlinesAux_nil, if_pos rfl]; exact LinesWF.nil
    · rw [readlinesAux_nil, if_neg h]
      exact LinesWF.single acc.reverse (by simpa using hacc) (by simpa using h)
  | cons c cs ih =>
    intro acc hacc
    by_cases h : c = '\n'
    · subst h
      rw [readlinesAux_cons_nl]
      exact LinesWF.cons acc.reverse _ (by simpa using hacc) (ih [] (by simp))
    · rw [readlinesAux_cons_ne c _ _ h]
      refine ih (c :: acc) ?_
      intro hmem
      rcases List.mem_cons.mp hmem with he | he
      · exact h he.symm
      · exact hacc he

theorem linesWF_tail {ls : List (List Char)} (h : LinesWF ls) : LinesWF ls.tail := by
  cases h with
  | nil => exact LinesWF.nil
  | single m hm hne => exact LinesWF.nil
  | cons m ls hm hls => exact hls

theorem linesWF_drop {ls : List (List Char)} (h : LinesWF ls) :
    ∀ k, LinesWF (ls.drop k) := by
  intro k
  induction k with
  | zero => simpa using h
  | succ k ih => rw [← List.tail_drop]; exact linesWF_tail ih

theorem readlinesAux_flatten {ls : List (List Char)} (h : LinesWF ls) :
    readlinesAux ls.flatten [] = ls := by
  induction h with
  | nil => rw [List.flatten_nil, readlinesAux_nil, if_pos rfl]
  | single m hm hne => simpa using readlinesAux_open m hm hne []
  | cons m ls hm hls ih =>
    have hsh : ((m ++ ['\n']) :: ls).flatten = m ++ '\n' :: ls.flatten := by simp
    rw [hsh, readlinesAux_append_newline m [] ls.flatten, readlinesAux_line m hm [], ih]
    simp

theorem linesWF_take_closed :
    ∀ {ls : List (List Char)}, LinesWF ls → ∀ k, k < ls.length →
      ∀ l ∈ ls.take k, ∃ m, '\n' ∉ m ∧ l = m ++ ['\n'] := by
  intro ls h
  induction h with
  | nil =>
    intro k hk
    simp at hk
  | single m hm hne =>
    intro k hk
    have hk0 : k = 0 := by simpa using hk
    subst hk0
    simp
  | cons m ls hm hls ih =>
    intro k hk
    cases k with
    | zero => simp
    | succ k =>
      intro l hl
      rw [List.take_succ_cons] at hl
      rcases List.mem_cons.mp hl with rfl | hl
      · exact ⟨m, hm, rfl⟩
      · exact ih k (by simpa using hk) l hl

theorem readlinesAux_closed_flatten :
    ∀ (A : List (List Char)), (∀ l ∈ A, ∃ m, '\n' ∉ m ∧ l = m ++ ['\n']) →
      ∀ rest, readlinesAux (A.flatten ++ rest) [] = A ++ readlinesAux rest [] := by
  intro A
  induction A with
  | nil => intro _ rest; simp
  | cons a A ih =>
    intro hA rest
    obtain ⟨m, hm, rfl⟩ := hA _ (List.mem_cons_self a A)
    have hsh : ((m ++ ['\n']) :: A).flatten ++ rest = m ++ '\n' :: (A.flatten ++ rest) := by
      simp
    rw [hsh, readlinesAux_append_newline m [] (A.flatten ++ rest),
        readlinesAux_line m hm []]
    simp [ih (fun l hl => hA l (List.mem_cons_of_mem _ hl)) rest]


theorem mk_append (a b : List Char) : String.mk (a ++ b) = String.mk a ++ String.mk b := rfl

theorem mk_append_newline (s : String) : String.mk (s.data ++ ['\n']) = s ++ "\n" := rfl

theorem pyLines_length (s : String) :
    (pyLines s).length = (readlinesAux s.data []).length := by
  simp [pyLines]

theorem edit_lines_success (fs : FS) (filename directory content newContent : String)
    (startLine endLine : Nat)
    (hlk : lookupFile fs.files (filePath directory filename) = some content)
    (h1 : 1 ≤ startLine) (h2 : startLine ≤ endLine)
    (h3 : endLine ≤ (readlinesAux content.data []).length) :
    edit_lines filename startLine endLine newContent directory fs =
      (storeFile fs (filePath directory filename)
        (editResultContent content startLine endLine newContent),
       editSuccessMsg startLine endLine (filePath directory filename)) := by
  unfold edit_lines
  simp only [hlk]
  rw [if_neg (by omega)]

theorem readlines_editResult (content newContent : String) (startLine endLine : Nat)
    (h1 : 1 ≤ startLine) (h2 : startLine ≤ endLine)
    (h3 : endLine ≤ (readlinesAux content.data []).length) :
    readlinesAux (editResultContent content startLine endLine newContent).data [] =
      (readlinesAux content.data []).take (startLine - 1) ++
        readlinesAux (newContent.data ++ ['\n']) [] ++
        (readlinesAux content.data []).drop endLine := by
  have hwf : LinesWF (readlinesAux content.data []) :=
    linesWF_readlinesAux content.data [] (by simp)
  have hclosed : ∀ l ∈ (readlinesAux content.data []).take (startLine - 1),
      ∃ m, '\n' ∉ m ∧ l = m ++ ['\n'] :=
    linesWF_take_closed hwf (startLine - 1) (by omega)
  have e1 : ((readlinesAux content.data []).take (startLine - 1) ++
        [newContent.data ++ ['\n']] ++
        (readlinesAux content.data []).drop endLine).flatten =
      ((readlinesAux content.data []).take (startLine - 1)).flatten ++
        (newContent.data ++ '\n' ::
          ((readlinesAux content.data []).drop endLine).flatten) := by
    simp
  have hdata : (editResultContent content startLine endLine newContent).data =
      ((readlinesAux content.data []).take (startLine - 1)).flatten ++
        (newContent.data ++ '\n' ::
          ((readlinesAux content.data []).drop endLine).flatten) := by
    rw [← e1]; rfl
  rw [hdata,
      readlinesAux_closed_flatten _ hclosed _,
      readlinesAux_append_newline newContent.data []
        ((readlinesAux content.data []).drop endLine).flatten,
      readlinesAux_flatten (linesWF_drop hwf endLine), List.append_assoc]


/-- C5 (amended): for an existing file with `N` lines and `1 ≤ s ≤ e ≤ N`,
when `text` contains no newline character, `edit_lines` replaces lines
`s..e` (inclusive, 1-indexed) with the single line `text`, leaves all other
lines unchanged, and the resulting line count is `N - (e - s + 1) + 1`. -/
theorem c5_edit_lines_single_line (fs : FS)
    (filename directory content newContent : String) (startLine endLine : Nat)
    (hlk : lookupFile fs.files (filePath directory filename) = some content)
    (h1 : 1 ≤ startLine) (h2 : startLine ≤ endLine)
    (h3 : endLine ≤ (pyLines content).length)
    (hnc : '\n' ∉ newContent.data) :
    edit_lines filename startLine endLine newContent directory fs =
      (storeFile fs (filePath directory filename)
        (editResultContent content startLine endLine newContent),
       editSuccessMsg startLine endLine (filePath directory filename)) ∧
    pyLines (editResultContent content startLine endLine newContent) =
      (pyLines content).take (startLine - 1) ++ [newContent ++ "\n"] ++
        (pyLines content).drop endLine ∧
    (pyLines (editResultContent content startLine endLine newContent)).length =
      (pyLines content).length - (endLine - startLine + 1) + 1 := by
  have h3' : endLine ≤ (readlinesAux content.data []).length := by
    rw [← pyLines_length]; exact h3
  refine ⟨edit_lines_success fs filename directory content newContent startLine endLine
    hlk h1 h2 h3', ?_, ?_⟩
  · unfold pyLines
    rw [readlines_editResult content newContent startLine endLine h1 h2 h3',
        readlinesAux_line newContent.data hnc []]
    simp [List.map_take, List.map_drop, mk_append_newline]
  · unfold pyLines
    rw [readlines_editResult content newContent startLine endLine h1 h2 h3',
        readlinesAux_line newContent.data hnc []]
    have hlen := pyLines_length content
    simp only [List.map_append, List.length_append, List.length_map,
      List.length_take, List.length_drop, List.map_cons, List.map_nil,
      List.length_cons, List.length_nil, List.nil_append, List.reverse_nil]
    omega

/-- C5 witness: a concrete valid-range, newline-free edit on a three-line
file. -/
theorem c5_edit_lines_single_line_witness :
    lookupFile (FS.mk [("d/f.txt", "x\ny\nz\n")] ["d"]).files (filePath "d" "f.txt") =
        some "x\ny\nz\n" ∧
    1 ≤ 1 ∧ 1 ≤ 2 ∧ 2 ≤ (pyLines "x\ny\nz\n").length ∧ '\n' ∉ "a".data ∧
    (edit_lines "f.txt" 1 2 "a" "d" (FS.mk [("d/f.txt", "x\ny\nz\n")] ["d"]) =
      (storeFile (FS.mk [("d/f.txt", "x\ny\nz\n")] ["d"]) (filePath "d" "f.txt")
        (editResultContent "x\ny\nz\n" 1 2 "a"),
       editSuccessMsg 1 2 (filePath "d" "f.txt")) ∧
    pyLines (editResultContent "x\ny\nz\n" 1 2 "a") =
      (pyLines "x\ny\nz\n").take 0 ++ ["a" ++ "\n"] ++ (pyLines "x\ny\nz\n").drop 2 ∧
    (pyLines (editResultContent "x\ny\nz\n" 1 2 "a")).length =
      (pyLines "x\ny\nz\n").length - (2 - 1 + 1) + 1) :=
  ⟨by decide, by decide, by decide, by decide, by decide,
   c5_edit_lines_single_line (FS.mk [("d/f.txt", "x\ny\nz\n")] ["d"])
     "f.txt" "d" "x\ny\nz\n" "a" 1 2 (by decide) (by decide) (by decide)
     (by decide) (by decide)⟩

/-- C5 counterexample: with `new_content` containing an embedded newline the
claimed line count `N - (e - s + 1) + 1` fails — editing lines 1..2 of a
3-line file with the text `"a\nb"` yields 3 lines, not 2. -/
theorem c5_counterexample :
    (pyLines "x\ny\nz\n").length = 3 ∧
    (1 ≤ 1 ∧ 1 ≤ 2 ∧ 2 ≤ (pyLines "x\ny\nz\n").length) ∧
    lookupFile
        (edit_lines "f.txt" 1 2 "a\nb" "d" (FS.mk [("d/f.txt", "x\ny\nz\n")] ["d"])).1.files
        "d/f.txt" = some "a\nb\nz\n" ∧
    (pyLines "a\nb\nz\n").length = 3 ∧
    ¬ (3 : Nat) = 3 - (2 - 1 + 1) + 1 := by
  decide

/-- C6: calling `edit_lines` on an existing file with an out-of-range or
inverted range (`s < 1`, `e > N`, or `s > e`) leaves the filesystem state
completely unchanged (the write only happens on the valid path) and returns
the invalid-line-range message. -/
theorem c6_invalid_range_no_write (fs : FS)
    (filename directory content newContent : String) (startLine endLine : Nat)
    (hlk : lookupFile fs.files (filePath directory filename) = some content)
    (hbad : startLine < 1 ∨ (pyLines content).length < endLine ∨ endLine < startLine) :
    edit_lines filename startLine endLine newContent directory fs =
      (fs, "Invalid line range specified for file " ++ filename ++ ".") := by
  unfold edit_lines
  simp only [hlk]
  rw [if_pos (by rw [← pyLines_length]; exact hbad)]

/-- C6 witness: `s = 0` on an existing three-line file. -/
theorem c6_invalid_range_no_write_witness :
    lookupFile (FS.mk [("d/f.txt", "x\ny\nz\n")] ["d"]).files (filePath "d" "f.txt") =
        some "x\ny\nz\n" ∧
    ((0 : Nat) < 1 ∨ (pyLines "x\ny\nz\n").length < 1 ∨ (1 : Nat) < 0) ∧
    edit_lines "f.txt" 0 1 "a" "d" (FS.mk [("d/f.txt", "x\ny\nz\n")] ["d"]) =
      (FS.mk [("d/f.txt", "x\ny\nz\n")] ["d"],
       "Invalid line range specified for file " ++ "f.txt" ++ ".") :=
  ⟨by decide, by decide,
   c6_invalid_range_no_write (FS.mk [("d/f.txt", "x\ny\nz\n")] ["d"])
     "f.txt" "d" "x\ny\nz\n" "a" 0 1 (by decide) (by decide)⟩

/-- C10: on a successful `edit_lines` call the text written in place of the
removed range is exactly `new_content` followed by one appended newline
character; the replacement block contributes `count of newlines in
new_content + 1` lines, so embedded newlines make it occupy more than one
line of the resulting file. -/
theorem c10_replacement_block (fs : FS)
    (filename directory content newContent : String) (startLine endLine : Nat)
    (hlk : lookupFile fs.files (filePath directory filename) = some content)
    (h1 : 1 ≤ startLine) (h2 : startLine ≤ endLine)
    (h3 : endLine ≤ (pyLines content).length) :
    edit_lines filename startLine endLine newContent directory fs =
      (storeFile fs (filePath directory filename)
        (editResultContent content startLine endLine newContent),
       editSuccessMsg startLine endLine (filePath directory filename)) ∧
    editResultContent content startLine endLine newContent =
      String.mk ((readlinesAux content.data []).take (startLine - 1)).flatten ++
        (newContent ++ "\n") ++
        String.mk ((readlinesAux content.data []).drop endLine).flatten ∧
    (pyLines (editResultContent content startLine endLine newContent)).length =
      (startLine - 1) + (newContent.data.count '\n' + 1) +
        ((pyLines content).length - endLine) ∧
    ('\n' ∈ newContent.data →
      1 < (readlinesAux (newContent.data ++ ['\n']) []).length) := by
  have h3' : endLine ≤ (readlinesAux content.data []).length := by
    rw [← pyLines_length]; exact h3
  refine ⟨edit_lines_success fs filename directory content newContent startLine endLine
    hlk h1 h2 h3', ?_, ?_, ?_⟩
  · have e1 : ((readlinesAux content.data []).take (startLine - 1) ++
          [newContent.data ++ ['\n']] ++
          (readlinesAux content.data []).drop endLine).flatten =
        ((readlinesAux content.data []).take (startLine - 1)).flatten ++
          ((newContent.data ++ ['\n']) ++
            ((readlinesAux content.data []).drop endLine).flatten) := by
      simp
    show String.mk _ = _
    rw [e1, mk_append, mk_append, mk_append_newline]
    simp [String.append_assoc]
  · unfold pyLines
    rw [readlines_editResult content newContent startLine endLine h1 h2 h3']
    have hlen := pyLines_length content
    simp only [List.map_append, List.length_append, List.length_map,
      List.length_take, List.length_drop]
    rw [readlinesAux_closed_length newContent.data []]
    omega
  · intro hmem
    rw [readlinesAux_closed_length newContent.data []]
    have := List.count_pos_iff.mpr hmem
    omega

/-- C10 witness: replacing line 1 of a two-line file with a text containing
an embedded newline. -/
theorem c10_replacement_block_witness :
    lookupFile (FS.mk [("d/f.txt", "x\ny\n")] ["d"]).files (filePath "d" "f.txt") =
        some "x\ny\n" ∧
    1 ≤ 1 ∧ 1 ≤ 1 ∧ 1 ≤ (pyLines "x\ny\n").length ∧
    (edit_lines "f.txt" 1 1 "p\nq" "d" (FS.mk [("d/f.txt", "x\ny\n")] ["d"]) =
      (storeFile (FS.mk [("d/f.txt", "x\ny\n")] ["d"]) (filePath "d" "f.txt")
        (editResultContent "x\ny\n" 1 1 "p\nq"),
       editSuccessMsg 1 1 (filePath "d" "f.txt")) ∧
    editResultContent "x\ny\n" 1 1 "p\nq" =
      String.mk ((readlinesAux "x\ny\n".data []).take 0).flatten ++
        ("p\nq" ++ "\n") ++
        String.mk ((readlinesAux "x\ny\n".data []).drop 1).flatten ∧
    (pyLines (editResultContent "x\ny\n" 1 1 "p\nq")).length =
      0 + ("p\nq".data.count '\n' + 1) + ((pyLines "x\ny\n").length - 1) ∧
    ('\n' ∈ "p\nq".data →
      1 < (readlinesAux ("p\nq".data ++ ['\n']) []).length)) :=
  ⟨by decide, by decide, by decide, by decide,
   c10_replacement_block (FS.mk [("d/f.txt", "x\ny\n")] ["d"])
     "f.txt" "d" "x\ny\n" "p\nq" 1 1 (by decide) (by decide) (by decide) (by decide)⟩


theorem driverPushesAux_eq (raises : Nat → Bool) (finder : String) :
    ∀ fuel attempt,
      driverPushesAux raises finder fuel attempt =
        ((driverAttemptsRunAux raises fuel attempt).filter (fun n => raises n)).map
          (fun n => (pushBranchName finder n, pushCommitMsg finder)) := by
  intro fuel
  induction fuel with
  | zero => intro a; rfl
  | succ fuel ih =>
    intro a
    by_cases h : raises a
    · simp [driverPushesAux, driverAttemptsRunAux, h, List.filter_cons, ih (a + 1)]
    · simp [driverPushesAux, driverAttemptsRunAux, h, List.filter_cons]

theorem mem_driverAttemptsRunAux (raises : Nat → Bool) :
    ∀ fuel attempt n,
      n ∈ driverAttemptsRunAux raises fuel attempt ↔
        (attempt ≤ n ∧ n < attempt + fuel ∧
          ∀ j, attempt ≤ j → j < n → raises j = true) := by
  intro fuel
  induction fuel with
  | zero =>
    intro a n
    simp only [driverAttemptsRunAux, List.not_mem_nil, false_iff]
    rintro ⟨h1, h2, _⟩
    omega
  | succ fuel ih =>
    intro a n
    by_cases h : raises a
    · simp only [driverAttemptsRunAux, if_pos h, List.mem_cons, ih (a + 1) n]
      constructor
      · rintro (rfl | ⟨ha, hb, hc⟩)
        · exact ⟨Nat.le_refl n, by omega, fun j h1 h2 => by omega⟩
        · refine ⟨by omega, by omega, fun j h1 h2 => ?_⟩
          rcases Nat.eq_or_lt_of_le h1 with rfl | hlt
          · exact h
          · exact hc j hlt h2
      · rintro ⟨ha, hb, hc⟩
        rcases Nat.eq_or_lt_of_le ha with rfl | hlt
        · exact Or.inl rfl
        · exact Or.inr ⟨hlt, by omega, fun j h1 h2 => hc j (by omega) h2⟩
    · simp only [driverAttemptsRunAux, if_neg h, List.mem_cons, List.not_mem_nil,
        or_false]
      constructor
      · rintro rfl
        exact ⟨Nat.le_refl n, by omega, fun j h1 h2 => by omega⟩
      · rintro ⟨ha, hb, hc⟩
        rcases Nat.eq_or_lt_of_le ha with rfl | hlt
        · rfl
        · exact absurd (hc a (Nat.le_refl a) hlt) (by simp [h])

/-- C1 (amended): for every target in the campaign list, the driver pushes a
branch exactly after the attempts that raised (which form an initial segment
of the at most five attempts run), each labelled with the target identifier
(slashes replaced by underscores) and the 1-based attempt number; an attempt
that completes without raising breaks out of the loop before the push, so it
yields no driver-level push. -/
theorem c1_pushes_only_raising_attempts (finder : String) (raises : Nat → Bool)
    (_hfinder : finder ∈ finders) :
    driverPushes raises finder =
      ((driverAttemptsRun raises).filter (fun n => raises n)).map
        (fun n => (pushBranchName finder n, pushCommitMsg finder)) :=
  driverPushesAux_eq raises finder 5 0

/-- C1 witness: the first campaign target with every attempt raising. -/
theorem c1_pushes_only_raising_attempts_witness :
    "cloudfix-aws/cloudfix-ff/src/ff/Emr/Enable/ManagedScaling" ∈ finders ∧
    driverPushes (fun _ => true)
        "cloudfix-aws/cloudfix-ff/src/ff/Emr/Enable/ManagedScaling" =
      ((driverAttemptsRun (fun _ => true)).filter (fun _ => true)).map
        (fun n =>
          (pushBranchName "cloudfix-aws/cloudfix-ff/src/ff/Emr/Enable/ManagedScaling" n,
           pushCommitMsg "cloudfix-aws/cloudfix-ff/src/ff/Emr/Enable/ManagedScaling")) :=
  ⟨by decide,
   c1_pushes_only_raising_attempts
     "cloudfix-aws/cloudfix-ff/src/ff/Emr/Enable/ManagedScaling"
     (fun _ => true) (by decide)⟩

/-- C1 counterexample: on a target whose first attempt completes without
raising, that attempt runs and finishes, yet the driver performs no push at
all — contradicting the claim that every finished attempt (raising or not)
is followed by a driver-level branch push. -/
theorem c1_counterexample :
    "cloudfix-aws/cloudfix-ff/src/ff/Emr/Enable/ManagedScaling" ∈ finders ∧
    driverAttemptsRun (fun _ => false) = [0] ∧
    driverPushes (fun _ => false)
      "cloudfix-aws/cloudfix-ff/src/ff/Emr/Enable/ManagedScaling" = [] :=
  ⟨by decide, rfl, rfl⟩

/-- C2 (amended): the driver breaks out of the attempt loop on the first
non-raising completion — attempt `n` runs exactly when `n < 5` and every
earlier attempt of that target raised. -/
theorem c2_attempt_loop_breaks_on_success (raises : Nat → Bool) (n : Nat) :
    n ∈ driverAttemptsRun raises ↔ (n < 5 ∧ ∀ j, j < n → raises j = true) := by
  rw [driverAttemptsRun, mem_driverAttemptsRunAux raises 5 0 n]
  constructor
  · rintro ⟨_, hb, hc⟩
    exact ⟨by omega, fun j hj => hc j (Nat.zero_le j) hj⟩
  · rintro ⟨ha, hb⟩
    exact ⟨Nat.zero_le n, by omega, fun j _ hj => hb j hj⟩

/-- C2 counterexample: when attempt 1 (index 0) completes without raising,
the driver runs no further attempt for the target — it does not proceed to
attempt 2. -/
theorem c2_counterexample :
    driverAttemptsRun (fun _ => false) = [0] ∧
    (1 : Nat) ∉ driverAttemptsRun (fun _ => false) :=
  ⟨rfl, by decide⟩

/-- C3: the tool list bound to the model does not contain `git_reset`, even
though every other catalogued tool is present; the script defines `git_reset`
and its own system prompt tells the model to use a reset tool, but the
function was never added to the `tools` list. -/
theorem c3_git_reset_missing :
    "git_reset" ∉ toolNames ∧
    (["create_directory", "find_file", "create_file", "open_file", "replace_file",
      "append_file", "edit_lines", "ls", "compile", "lint",
      "create_and_push_branch", "git_diff"].all
        (fun t => toolNames.contains t)) = true := by
  decide

/-- C4 (amended): every tool implemented in the script and bound in the
registry, except `find_file`, has its whole body inside try/except and so
returns a result to the caller instead of raising; `find_file` is the one
tool without a handler. -/
theorem c4_tools_never_raise_except_find (c : ToolCall) (fs : FS)
    (h : isFindFileCall c = false) :
    isOkResult (invokeTool c fs) = true := by
  cases c with
  | findFileCall filename path => simp [isFindFileCall] at h
  | createDirectoryCall d => rfl
  | createFileCall n c d => rfl
  | openFileCall n d => rfl
  | replaceFileCall n c d => rfl
  | appendFileCall n c d => rfl
  | editLinesCall n s e c d => rfl
  | lsCall d => rfl
  | compileCall o1 o2 => rfl
  | lintCall o => rfl
  | createAndPushBranchCall b m o1 o2 o3 o4 => rfl
  | gitDiffCall o => rfl

/-- C4 witness: a `create_directory` invocation returns normally. -/
theorem c4_tools_never_raise_witness :
    isFindFileCall (ToolCall.createDirectoryCall "out") = false ∧
    isOkResult (invokeTool (ToolCall.createDirectoryCall "out") (FS.mk [] [])) = true :=
  ⟨rfl, c4_tools_never_raise_except_find (ToolCall.createDirectoryCall "out")
    (FS.mk [] []) rfl⟩

/-- C4 counterexample: `find_file` has no exception handler, so the
`NotImplementedError` pathlib raises on a non-relative pattern (a filename
beginning with `/`) escapes the tool to the caller, refuting the claim that
every tool catches all failures arising during the recursive search. -/
theorem c4_counterexample :
    invokeTool (ToolCall.findFileCall "/etc/passwd" ".") (FS.mk [] []) =
      Except.error "NotImplementedError: Non-relative patterns are unsupported" := rfl

/-- C7: for a filename with exactly one dot and an allow-listed extension,
if no file of that name exists at the target path, `create_file` writes
`content` there and a subsequent `open_file` with the same name and
directory returns exactly `content`. -/
theorem c7_create_then_open (fs : FS) (filename stem ext content directory : String)
    (hsplit : pySplitDot filename = [stem, ext])
    (hext : ext ∈ VALID_FILE_TYPES)
    (habsent : lookupFile fs.files (filePath directory filename) = Option.none) :
    open_file filename directory (create_file filename content directory fs).1 = content := by
  have habsent1 : lookupFile ((create_directory directory fs).1).files
      (filePath directory filename) = Option.none := by
    simpa [create_directory] using habsent
  have hstep : create_file filename content directory fs =
      (storeFile ((create_directory directory fs).1) (filePath directory filename) content,
       "Successfully created file " ++ filename ++ " at " ++ filePath directory filename) := by
    unfold create_file
    rw [hsplit]
    simp only [if_pos hext, habsent1]
  rw [hstep]
  unfold open_file
  simp [storeFile, lookupFile]

/-- C7 witness: creating `report.md` with content `hello` in `out` and
reading it back. -/
theorem c7_create_then_open_witness :
    pySplitDot "report.md" = ["report", "md"] ∧
    "md" ∈ VALID_FILE_TYPES ∧
    lookupFile (FS.mk [] []).files (filePath "out" "report.md") = Option.none ∧
    open_file "report.md" "out" (create_file "report.md" "hello" "out" (FS.mk [] [])).1 =
      "hello" :=
  ⟨by decide, by decide, rfl,
   c7_create_then_open (FS.mk [] []) "report.md" "report" "md" "hello" "out"
     (by decide) (by decide) rfl⟩

theorem agentLoopRoundsAux_le (oracle : Nat → OracleResponse) :
    ∀ fuel round recovering, agentLoopRoundsAux oracle fuel round recovering ≤ fuel := by
  intro fuel
  induction fuel with
  | zero => intro r b; exact Nat.le_refl 0
  | succ fuel ih =>
    intro r b
    cases horacle : oracle r with
    | finalAnswer a => simp [agentLoopRoundsAux, horacle]
    | toolCalls cs =>
      have := ih (r + 1) false
      simp only [agentLoopRoundsAux, horacle]
      omega
    | malformed =>
      cases b with
      | true => simp [agentLoopRoundsAux, horacle]
      | false =>
        have := ih (r + 1) true
        simp only [agentLoopRoundsAux, horacle, Bool.false_eq_true, if_false]
        omega

/-- C8: the Agent Loop (modelled from the spec, with the iteration cap 50
configured in src/agent.py:468) consumes at most 50 oracle rounds for every
oracle behaviour, and an oracle that never returns a final answer makes the
attempt end in the iteration-cap abort rather than looping forever. -/
theorem c8_agent_loop_bounded :
    (∀ oracle, agentLoopRounds oracle ≤ MAX_ITERATIONS) ∧
    MAX_ITERATIONS = 50 ∧
    agentLoop (fun _ => OracleResponse.toolCalls []) = LoopOutcome.abortedCap :=
  ⟨fun oracle => agentLoopRoundsAux_le oracle MAX_ITERATIONS 0 false, rfl, by decide⟩

/-- C9: a filename that does not split into exactly two parts around dots —
no dot at all, or more than one dot — makes `create_file` return the
invalid-filename message with the filesystem state untouched: neither the
file nor the target directory is created, regardless of what follows the
last dot. -/
theorem c9_invalid_split_no_create (filename content directory : String) (fs : FS)
    (hsplit : (pySplitDot filename).length ≠ 2) :
    create_file filename content directory fs = (fs, invalidFilenameMsg filename) := by
  unfold create_file
  rcases hl : pySplitDot filename with _ | ⟨a, _ | ⟨b, _ | ⟨c, t⟩⟩⟩
  · rfl
  · rfl
  · exact absurd (by rw [hl]; rfl) hsplit
  · rfl

/-- C9 witness: `a.test.py` has two dots (its split has three parts) and its
last segment `py` is allow-listed, yet `create_file` rejects it and changes
nothing. -/
theorem c9_invalid_split_no_create_witness :
    (pySplitDot "a.test.py").length ≠ 2 ∧
    (pySplitDot "a.test.py").getLastD "" = "py" ∧
    "py" ∈ VALID_FILE_TYPES ∧
    create_file "a.test.py" "x" "out" (FS.mk [] []) =
      (FS.mk [] [], invalidFilenameMsg "a.test.py") :=
  ⟨by decide, by decide, by decide,
   c9_invalid_split_no_create "a.test.py" "x" "out" (FS.mk [] []) (by decide)⟩

end CloudfixAgent


